import Mathlib

/-!
Verification of the FidgetSense sample-collector (src/main.rs) against its
specification. The Rust program is shallowly embedded: the serial ingestion
loop becomes a step function on an explicit state, fallible I/O becomes
`Except`, and the randomized timeline generator becomes a pure function of a
draw stream. Machine integers of the source (usize, u128) are modelled as
`Nat`; none of the modelled counters can overflow in the source's ranges.
-/

namespace FidgetSense

/-- Warm-up line count W from the source: `const WARMUP_LINE_COUNT: usize = 500`. -/
def WARMUP_LINE_COUNT : Nat := 500

/-- Flush interval F from the source: `const FLUSH_EVERY: usize = 5_000`. -/
def FLUSH_EVERY : Nat := 5000

/-- Default serial device path from the source: `const DEFAULT_DEVICE_NAME`. -/
def DEFAULT_DEVICE_NAME : String := "/dev/serial/by-id/usb-1a86_USB_Serial-if00-port0"

/-- The activity codes of the source's `enum Activity`. -/
inductive Activity where
  | NOTHING
  | TYPING
  | SCROLLING
  | FIDGETING
  | OTHER
deriving DecidableEq

/-- The fixed slot array `ACTIVITIES_ARR`: two repetitions of each real activity. -/
def ACTIVITIES_ARR : List Activity :=
  [Activity.NOTHING, Activity.NOTHING, Activity.TYPING, Activity.TYPING,
   Activity.SCROLLING, Activity.SCROLLING, Activity.FIDGETING, Activity.FIDGETING]

/-- One result of `BufRead::read_line` in the ingestion loop: `Ok(0)` at end of
stream, `Ok(n)` with the line text (the text keeps its trailing newline, as
`read_line` delivers it), or `Err(_)` for a read error. -/
inductive ReadEvent where
  | eof
  | line (s : String)
  | err
deriving DecidableEq

/-- Whether the event is a successfully read line (`Ok(n)` with n > 0). -/
def ReadEvent.isLine : ReadEvent → Bool
  | ReadEvent.line _ => true
  | _ => false

/-- State of the serial ingestion loop in `main`. `skip_first_three` and
`counter` are the two mutable counters of the source (their source names kept);
`buffer` is the content of the `BufWriter` not yet flushed; `flushed` is the
content already written to `readings.csv` on disk; `tsCalls` counts the calls
to `now_ms()` made so far (each write evaluates `now_ms()` exactly once);
`flushLog` records, for every in-loop `flush()` call, the value `counter` had
on that iteration. -/
structure IngestState where
  skip_first_three : Nat
  counter : Nat
  buffer : List String
  flushed : List String
  tsCalls : Nat
  flushLog : List Nat
deriving DecidableEq

/-- The loop state at entry: `skip_first_three = 0`, `counter = 0`, fresh
`readings.csv`, empty write buffer. -/
def initState : IngestState :=
  { skip_first_three := 0, counter := 0, buffer := [], flushed := [],
    tsCalls := 0, flushLog := [] }

/-- The source's blank test `line.trim().is_empty()`: trimming leading and
trailing whitespace leaves the empty string exactly when every character of
the line is whitespace, so the test is embedded as that character check
(`String.trim` itself is defined by well-founded recursion and does not
evaluate inside the kernel). `Char.isWhitespace` covers space, tab, CR and
LF; Rust additionally treats rare Unicode whitespace as blank, a difference
no claim here depends on. -/
def trimIsEmpty (s : String) : Bool :=
  s.data.all Char.isWhitespace

/-- The `Ok(_)` arm of the loop body followed by the trailing `counter += 1`:
during warm-up the line is dropped and `continue` skips the counter bump;
afterwards a non-blank line is written as `"<now_ms()>;<line>"` into the
buffer and, when `counter > FLUSH_EVERY`, the buffer is flushed. `clock k`
is the value of the (k+1)-st `now_ms()` call. -/
def ingestStep (clock : Nat → Nat) (st : IngestState) (s : String) : IngestState :=
  if st.skip_first_three < WARMUP_LINE_COUNT then
    { st with skip_first_three := st.skip_first_three + 1 }
  else
    let st1 :=
      if trimIsEmpty s then st
      else
        let stW := { st with
          buffer := st.buffer ++ [toString (clock st.tsCalls) ++ ";" ++ s],
          tsCalls := st.tsCalls + 1 }
        if stW.counter > FLUSH_EVERY then
          { stW with flushed := stW.flushed ++ stW.buffer, buffer := [],
                     flushLog := stW.flushLog ++ [stW.counter] }
        else stW
    { st1 with counter := st1.counter + 1 }

/-- The ingestion loop over a stream of read results: `Ok(0)` breaks out,
`Err(_)` is swallowed (the commented-out log) and still runs `counter += 1`,
`Ok(n)` runs `ingestStep`. -/
def ingestRun (clock : Nat → Nat) : List ReadEvent → IngestState → IngestState
  | [], st => st
  | ReadEvent.eof :: _, st => st
  | ReadEvent.line s :: rest, st => ingestRun clock rest (ingestStep clock st s)
  | ReadEvent.err :: rest, st => ingestRun clock rest { st with counter := st.counter + 1 }

/-- The unconditional `buffered_writer.flush()?` after the loop. It is not an
in-loop flush, so it does not extend `flushLog`. -/
def finalFlush (st : IngestState) : IngestState :=
  { st with flushed := st.flushed ++ st.buffer, buffer := [] }

/-- The whole ingestion phase of `main`: run the loop on the stream, then the
final flush. -/
def ingestMain (clock : Nat → Nat) (evs : List ReadEvent) : IngestState :=
  finalFlush (ingestRun clock evs initState)

/-- The `Ok(_)` arm of the loop body with fallible file output: `write!` and
`flush()` both carry `?`, so a failure of either aborts the whole loop (and
`main`). `writeOk k` tells whether the (k+1)-st `write!` call succeeds
(writes and `now_ms()` calls are in bijection, so `tsCalls` indexes them);
`flushOk k` tells whether the (k+1)-st in-loop `flush()` call succeeds. -/
def ingestStepE (clock : Nat → Nat) (writeOk flushOk : Nat → Bool)
    (st : IngestState) (s : String) : Except Unit IngestState :=
  if st.skip_first_three < WARMUP_LINE_COUNT then
    Except.ok { st with skip_first_three := st.skip_first_three + 1 }
  else if trimIsEmpty s then
    Except.ok { st with counter := st.counter + 1 }
  else if writeOk st.tsCalls = false then
    Except.error ()
  else
    let stW := { st with
      buffer := st.buffer ++ [toString (clock st.tsCalls) ++ ";" ++ s],
      tsCalls := st.tsCalls + 1 }
    if stW.counter > FLUSH_EVERY then
      if flushOk stW.flushLog.length = false then Except.error ()
      else Except.ok { stW with flushed := stW.flushed ++ stW.buffer, buffer := [],
                                flushLog := stW.flushLog ++ [stW.counter],
                                counter := stW.counter + 1 }
    else Except.ok { stW with counter := stW.counter + 1 }

/-- The ingestion loop with fallible file output: a serial read error
(`Err(_)`) is swallowed and the loop continues, but an `Except.error` from
`ingestStepE` (failed `write!` or failed `flush()`) is propagated by `?` and
ends the run; the rest of the stream is never read. -/
def ingestRunE (clock : Nat → Nat) (writeOk flushOk : Nat → Bool) :
    List ReadEvent → IngestState → Except Unit IngestState
  | [], st => Except.ok st
  | ReadEvent.eof :: _, st => Except.ok st
  | ReadEvent.err :: rest, st =>
      ingestRunE clock writeOk flushOk rest { st with counter := st.counter + 1 }
  | ReadEvent.line s :: rest, st =>
      match ingestStepE clock writeOk flushOk st s with
      | Except.error e => Except.error e
      | Except.ok st2 => ingestRunE clock writeOk flushOk rest st2

/-! Session directory allocation (`next_numeric_subdir`). A directory entry
read from `fs::read_dir` is an `Except`: `Except.ok` for an entry the loop
could read (its name is irrelevant to the source, which only counts), and
`Except.error` for a per-entry read failure, which is logged and skipped. -/

/-- The body of `next_numeric_subdir`: `current_index` starts at 1 and is
bumped once per readable entry; the returned path is
`base_dir.join(current_index.to_string())`, embedded as the strings joined
with a path separator. `main` then calls `fs::create_dir` on exactly this
path. -/
def next_numeric_subdir (base_dir : String) (entries : List (Except String Unit)) : String :=
  let current_index := entries.foldl
    (fun idx e => match e with
      | Except.ok _ => idx + 1
      | Except.error _ => idx) 1
  base_dir ++ "/" ++ toString current_index

/-! Serial device opening in `main`. -/

/-- The `io::ErrorKind` values the open-port logic distinguishes. -/
inductive ErrorKind where
  | notFound
  | permissionDenied
  | other
deriving DecidableEq

/-- An `io::Error`, as a kind plus its display message. -/
structure IoError where
  kind : ErrorKind
  msg : String
deriving DecidableEq

/-- The device path `main` attempts: `args.dev` or the default constant. -/
def deviceOf (argsDev : Option String) : String :=
  argsDev.getD DEFAULT_DEVICE_NAME

/-- `SerialPort::open(&dev, BAUD).map_err(...)`: the open attempt on the
configured device (`openFn` stands for the external open call, applied to the
path actually attempted); a `NotFound` failure is replaced by a new `NotFound`
error whose message is built from `DEFAULT_DEVICE_NAME`, and any other
failure is returned unchanged. -/
def open_port (argsDev : Option String) (openFn : String → Except IoError Unit) :
    Except IoError Unit :=
  match openFn (deviceOf argsDev) with
  | Except.ok p => Except.ok p
  | Except.error e =>
      Except.error
        (if e.kind = ErrorKind.notFound then
          { kind := ErrorKind.notFound, msg := "Device not found: " ++ DEFAULT_DEVICE_NAME }
        else e)

/-! The label writer and the autonomous timeline generator. -/

/-- The code letter `write_label_to_file` writes for each activity. -/
def activityCode : Activity → String
  | Activity.TYPING => "t"
  | Activity.SCROLLING => "s"
  | Activity.FIDGETING => "f"
  | Activity.NOTHING => "n"
  | Activity.OTHER => "o"

/-- `get_before_activity_msg`: the countdown cue for each activity; the
source's `unreachable!()` arm for `OTHER` is embedded as `none`. -/
def get_before_activity_msg : Activity → Option String
  | Activity.TYPING => some "Prepare to type!"
  | Activity.NOTHING => some "Prepare to nothing!"
  | Activity.SCROLLING => some "Prepare to scroll!"
  | Activity.FIDGETING => some "Prepare to fidget!"
  | Activity.OTHER => none

/-- The `labels.csv` handle: the lines on disk and how many `writeln!` calls
were attempted on it so far. -/
structure LabelFile where
  lines : List String
  writeAttempts : Nat
deriving DecidableEq

/-- `write_label_to_file(activity, file)`: one `writeln!(file, "{};{}",
now_ms(), s)` call. `ok k` tells whether the (k+1)-st attempted write
succeeds and `clock k` is the `now_ms()` value it reads. The call returns
`io::Result<()>` — an error is returned, not raised — and the handle stays
usable either way. -/
def write_label_to_file (ok : Nat → Bool) (clock : Nat → Nat) (a : Activity)
    (f : LabelFile) : Except Unit Unit × LabelFile :=
  if ok f.writeAttempts then
    (Except.ok (),
     { lines := f.lines ++ [toString (clock f.writeAttempts) ++ ";" ++ activityCode a],
       writeAttempts := f.writeAttempts + 1 })
  else
    (Except.error (), { f with writeAttempts := f.writeAttempts + 1 })

/-- The spawned thread's loop in `main`: for each slot of the shuffled array,
write an `OTHER` label, then (after countdown and instruction display) the
slot's own label; after the loop one final `OTHER` label. Every call's
`io::Result` value is dropped on the floor, so the loop continues whatever
the write outcomes are. -/
def runTimeline (ok : Nat → Bool) (clock : Nat → Nat) :
    List Activity → LabelFile → LabelFile
  | [], f => (write_label_to_file ok clock Activity.OTHER f).2
  | a :: rest, f =>
      let f1 := (write_label_to_file ok clock Activity.OTHER f).2
      let f2 := (write_label_to_file ok clock a f1).2
      runTimeline ok clock rest f2

/-- A full autonomous session of the label writer, on the freshly created
(empty) `labels.csv`. -/
def labelSession (ok : Nat → Bool) (clock : Nat → Nat) (acts : List Activity) :
    LabelFile :=
  runTimeline ok clock acts { lines := [], writeAttempts := 0 }

/-- The sequence of activity codes the timeline loop emits, in order: an
`OTHER` before each slot's own code, and one final `OTHER`. -/
def timelineEvents : List Activity → List Activity
  | [] => [Activity.OTHER]
  | a :: rest => Activity.OTHER :: a :: timelineEvents rest

/-- Occurrences of one activity code in an event list. -/
def countAct (x : Activity) (l : List Activity) : Nat :=
  l.countP (fun y => decide (y = x))

/-! The randomized choices of the generator: `activities.shuffle(&mut rng)`
(rand's Fisher-Yates: `for i in (1..len).rev() { swap(i, gen_range(0..=i)) }`)
and, per `TYPING` slot, `TEXTS.choose(&mut rng)`. The rng is embedded as the
stream `s : Nat → Nat` of its successive draws, consumed left to right;
`gen_range(0..=i)` on the k-th draw is `s k % (i + 1)`, and a chosen passage
is its index into `TEXTS` (the five canned passages), `s k % TEXTS_COUNT`. -/

/-- Number of canned passages in `const TEXTS: [&str; 5]`. -/
def TEXTS_COUNT : Nat := 5

/-- `slice::swap(i, j)` on the slot list (out-of-range indices leave the list
unchanged; the source never goes out of range). -/
def listSwap (l : List Activity) (i j : Nat) : List Activity :=
  match l.get? i, l.get? j with
  | some a, some b => (l.set i b).set j a
  | _, _ => l

/-- The Fisher-Yates loop, counting `i` down: at loop variable `i + 1`, swap
position `i + 1` with a draw in `0..=i+1`, consuming one draw. `k` is the
index of the next unconsumed draw; the final `k` is returned with the list. -/
def shuffleGo (s : Nat → Nat) : Nat → List Activity → Nat → List Activity × Nat
  | 0, l, k => (l, k)
  | i + 1, l, k => shuffleGo s i (listSwap l (i + 1) (s k % (i + 2))) (k + 1)

/-- `activities.shuffle(&mut rng)` on a list, starting at draw index `k`. -/
def shuffle (s : Nat → Nat) (l : List Activity) (k : Nat) : List Activity × Nat :=
  shuffleGo s (l.length - 1) l k

/-- The retype-passage choices of a session: walking the shuffled slots in
order, each `TYPING` slot consumes one draw in `show_after_countdown_msg`
and picks the passage with that index; other slots draw nothing. -/
def chooseDraws (s : Nat → Nat) : List Activity → Nat → List Nat × Nat
  | [], k => ([], k)
  | Activity.TYPING :: rest, k =>
      let t := s k % TEXTS_COUNT
      let p := chooseDraws s rest (k + 1)
      (t :: p.1, p.2)
  | _ :: rest, k => chooseDraws s rest k

/-- All randomized choices of one autonomous session as a function of the
draw stream: the shuffled slot order and the chosen passage indices. -/
def sessionPlan (s : Nat → Nat) : List Activity × List Nat :=
  let p := shuffle s ACTIVITIES_ARR 0
  (p.1, (chooseDraws s p.1 p.2).1)

/-! ### The four shapes of one ingestion-loop iteration on a read line -/

theorem ingestStep_warmup (clock : Nat → Nat) (st : IngestState) (s : String)
    (h : st.skip_first_three < WARMUP_LINE_COUNT) :
    ingestStep clock st s = { st with skip_first_three := st.skip_first_three + 1 } := by
  simp [ingestStep, h]

theorem ingestStep_blank (clock : Nat → Nat) (st : IngestState) (s : String)
    (hw : WARMUP_LINE_COUNT ≤ st.skip_first_three) (hb : trimIsEmpty s = true) :
    ingestStep clock st s = { st with counter := st.counter + 1 } := by
  simp [ingestStep, hb, Nat.not_lt.mpr hw]

theorem ingestStep_write_noflush (clock : Nat → Nat) (st : IngestState) (s : String)
    (hw : WARMUP_LINE_COUNT ≤ st.skip_first_three) (hb : trimIsEmpty s = false)
    (hc : ¬ st.counter > FLUSH_EVERY) :
    ingestStep clock st s = { st with
      buffer := st.buffer ++ [toString (clock st.tsCalls) ++ ";" ++ s],
      tsCalls := st.tsCalls + 1,
      counter := st.counter + 1 } := by
  simp [ingestStep, hb, Nat.not_lt.mpr hw, hc]

theorem ingestStep_write_flush (clock : Nat → Nat) (st : IngestState) (s : String)
    (hw : WARMUP_LINE_COUNT ≤ st.skip_first_three) (hb : trimIsEmpty s = false)
    (hc : st.counter > FLUSH_EVERY) :
    ingestStep clock st s = { st with
      buffer := [],
      flushed := st.flushed ++ (st.buffer ++ [toString (clock st.tsCalls) ++ ";" ++ s]),
      tsCalls := st.tsCalls + 1,
      flushLog := st.flushLog ++ [st.counter],
      counter := st.counter + 1 } := by
  simp [ingestStep, hb, Nat.not_lt.mpr hw, hc]

/-! ### Run-level helper lemmas -/

theorem ingestRun_append_lines (clock : Nat → Nat) :
    ∀ (evs rest : List ReadEvent) (st : IngestState),
      evs.all ReadEvent.isLine = true →
      ingestRun clock (evs ++ rest) st = ingestRun clock rest (ingestRun clock evs st)
  | [], _, _, _ => rfl
  | ReadEvent.line s :: tl, rest, st, hall => by
      have htl : tl.all ReadEvent.isLine = true := by
        rw [List.all_cons, Bool.and_eq_true] at hall
        exact hall.2
      simpa [ingestRun] using ingestRun_append_lines clock tl rest (ingestStep clock st s) htl
  | ReadEvent.eof :: _, _, _, hall => by
      simp [List.all_cons, ReadEvent.isLine] at hall
  | ReadEvent.err :: _, _, _, hall => by
      simp [List.all_cons, ReadEvent.isLine] at hall

theorem all_isLine_replicate (n : Nat) (s : String) :
    (List.replicate n (ReadEvent.line s)).all ReadEvent.isLine = true := by
  induction n with
  | zero => rfl
  | succ k ih => simp [List.replicate_succ, List.all_cons, ReadEvent.isLine, ih]

theorem ingestRun_warmup (clock : Nat → Nat) :
    ∀ (evs : List ReadEvent) (st : IngestState),
      evs.all ReadEvent.isLine = true →
      st.skip_first_three + evs.length ≤ WARMUP_LINE_COUNT →
      ingestRun clock evs st
        = { st with skip_first_three := st.skip_first_three + evs.length }
  | [], st, _, _ => by simp [ingestRun]
  | ReadEvent.line s :: tl, st, hall, hlen => by
      have htl : tl.all ReadEvent.isLine = true := by
        rw [List.all_cons, Bool.and_eq_true] at hall
        exact hall.2
      have hskip : st.skip_first_three < WARMUP_LINE_COUNT := by
        simp [List.length_cons] at hlen; omega
      rw [ingestRun, ingestStep_warmup clock st s hskip,
        ingestRun_warmup clock tl _ htl (by simp [List.length_cons] at hlen ⊢; omega)]
      simp [List.length_cons]; omega
  | ReadEvent.eof :: _, _, hall, _ => by
      simp [List.all_cons, ReadEvent.isLine] at hall
  | ReadEvent.err :: _, _, hall, _ => by
      simp [List.all_cons, ReadEvent.isLine] at hall

theorem ingestRun_noflush (clock : Nat → Nat) (s : String) (hb : trimIsEmpty s = false) :
    ∀ (n : Nat) (st : IngestState),
      WARMUP_LINE_COUNT ≤ st.skip_first_three →
      st.counter + n ≤ FLUSH_EVERY + 1 →
      (ingestRun clock (List.replicate n (ReadEvent.line s)) st).counter = st.counter + n
      ∧ (ingestRun clock (List.replicate n (ReadEvent.line s)) st).skip_first_three
          = st.skip_first_three
      ∧ (ingestRun clock (List.replicate n (ReadEvent.line s)) st).flushLog = st.flushLog
  | 0, st, _, _ => by simp [ingestRun]
  | n + 1, st, hw, hc => by
      have hnote : ¬ st.counter > FLUSH_EVERY := by omega
      have hstep := ingestStep_write_noflush clock st s hw hb hnote
      have ih := ingestRun_noflush clock s hb n
        { st with
          buffer := st.buffer ++ [toString (clock st.tsCalls) ++ ";" ++ s],
          tsCalls := st.tsCalls + 1,
          counter := st.counter + 1 }
        hw (by simp; omega)
      rw [List.replicate_succ, ingestRun, hstep]
      refine ⟨?_, ?_, ?_⟩
      · rw [ih.1]; simp; omega
      · rw [ih.2.1]
      · rw [ih.2.2]

theorem ingestRun_flushEvery (clock : Nat → Nat) (s : String) (hb : trimIsEmpty s = false) :
    ∀ (n : Nat) (st : IngestState),
      WARMUP_LINE_COUNT ≤ st.skip_first_three →
      FLUSH_EVERY < st.counter →
      (ingestRun clock (List.replicate n (ReadEvent.line s)) st).flushLog
        = st.flushLog ++ List.range' st.counter n
  | 0, st, _, _ => by simp [ingestRun]
  | n + 1, st, hw, hc => by
      have hstep := ingestStep_write_flush clock st s hw hb hc
      have ih := ingestRun_flushEvery clock s hb n
        { st with
          buffer := [],
          flushed := st.flushed ++ (st.buffer ++ [toString (clock st.tsCalls) ++ ";" ++ s]),
          tsCalls := st.tsCalls + 1,
          flushLog := st.flushLog ++ [st.counter],
          counter := st.counter + 1 }
        hw (by simp; omega)
      rw [List.replicate_succ, ingestRun, hstep, ih]
      simp [List.range'_succ]



/-! ### Claims about the ingestion loop -/

/-- Claim C3: none of the first W = 500 successfully read lines is ever
written to `readings.csv`, regardless of content — after exactly the warm-up
lines the state is the entry state with only the warm-up counter moved to
500 (so no buffered content, no disk content, no `now_ms()` call, and a flush
counter still at 0), and the rest of the run continues from that
content-independent state. -/
theorem warmup_discard (clock : Nat → Nat) (evs rest : List ReadEvent)
    (hall : evs.all ReadEvent.isLine = true)
    (hlen : evs.length = WARMUP_LINE_COUNT) :
    ingestRun clock evs initState
      = { initState with skip_first_three := WARMUP_LINE_COUNT }
    ∧ ingestRun clock (evs ++ rest) initState
      = ingestRun clock rest { initState with skip_first_three := WARMUP_LINE_COUNT } := by
  have h1 : ingestRun clock evs initState
      = { initState with skip_first_three := WARMUP_LINE_COUNT } := by
    have := ingestRun_warmup clock evs initState hall (by simp [initState, hlen])
    simpa [initState, hlen] using this
  exact ⟨h1, by rw [ingestRun_append_lines clock evs rest initState hall, h1]⟩

theorem warmup_discard_witness :
    ((List.replicate 500 (ReadEvent.line "w7\n")).all ReadEvent.isLine = true
      ∧ (List.replicate 500 (ReadEvent.line "w7\n")).length = WARMUP_LINE_COUNT)
    ∧ ingestRun (fun _ => 0) (List.replicate 500 (ReadEvent.line "w7\n")) initState
        = { initState with skip_first_three := WARMUP_LINE_COUNT }
    ∧ ingestRun (fun _ => 0) (List.replicate 500 (ReadEvent.line "w7\n") ++ []) initState
        = ingestRun (fun _ => 0) []
            { initState with skip_first_three := WARMUP_LINE_COUNT } :=
  ⟨⟨all_isLine_replicate 500 "w7\n", by simp only [List.length_replicate, WARMUP_LINE_COUNT]⟩,
   warmup_discard (fun _ => 0) (List.replicate 500 (ReadEvent.line "w7\n")) []
     (all_isLine_replicate 500 "w7\n") (by simp only [List.length_replicate, WARMUP_LINE_COUNT])⟩

/-- Claim C2 (counterexample): a whitespace-only line processed after warm-up
does advance the flush counter — from a post-warm-up state with `counter = 0`,
one blank line leaves `counter = 1`, so the claim's "leaves the flush
counter's state unchanged" is false on this input. -/
theorem blank_line_advances_counter :
    ¬ ((ingestStep (fun _ => 0)
          { skip_first_three := 500, counter := 0, buffer := [], flushed := [],
            tsCalls := 0, flushLog := [] } " \n").counter
        = ({ skip_first_three := 500, counter := 0, buffer := [], flushed := [],
             tsCalls := 0, flushLog := [] } : IngestState).counter) := by
  decide

/-- Claim C2 (as amended): a whitespace-only line read after warm-up writes
no row to `readings.csv` (buffer and disk content unchanged) and consumes no
timestamp (no `now_ms()` call), but the flush counter does advance: the
iteration ends in `counter += 1` exactly as for any other post-warm-up
iteration. -/
theorem blank_line_no_row (clock : Nat → Nat) (st : IngestState) (s : String)
    (hw : WARMUP_LINE_COUNT ≤ st.skip_first_three) (hb : trimIsEmpty s = true) :
    ingestStep clock st s = { st with counter := st.counter + 1 } :=
  ingestStep_blank clock st s hw hb

theorem blank_line_no_row_witness :
    (WARMUP_LINE_COUNT
        ≤ ({ skip_first_three := 500, counter := 0, buffer := [], flushed := [],
             tsCalls := 0, flushLog := [] } : IngestState).skip_first_three
      ∧ trimIsEmpty " \n" = true)
    ∧ ingestStep (fun _ => 0)
        { skip_first_three := 500, counter := 0, buffer := [], flushed := [],
          tsCalls := 0, flushLog := [] } " \n"
      = { skip_first_three := 500, counter := 1, buffer := [], flushed := [],
          tsCalls := 0, flushLog := [] } :=
  ⟨⟨by decide, by decide⟩,
   blank_line_no_row (fun _ => 0)
     { skip_first_three := 500, counter := 0, buffer := [], flushed := [],
       tsCalls := 0, flushLog := [] } " \n" (by decide) (by decide)⟩

theorem finalFlush_flushLog (st : IngestState) : (finalFlush st).flushLog = st.flushLog := rfl

theorem warmupInitRun (clock : Nat → Nat) (evs : List ReadEvent)
    (hall : evs.all ReadEvent.isLine = true) (hlen : evs.length = WARMUP_LINE_COUNT) :
    ingestRun clock evs initState
      = { initState with skip_first_three := WARMUP_LINE_COUNT } := by
  have := ingestRun_warmup clock evs initState hall (by simp [initState, hlen])
  simpa [initState, hlen] using this

/-- Warm-up then `m + k` non-blank lines, symbolically: when `m` is one past
the flush interval, the in-loop flush log is `range' m k` — no flush during
the first `m` post-warm-up lines, then one flush on every one of the `k`
remaining lines, at the successive (never reset) counter values. -/
theorem ingestMain_flushLog_pattern (clock : Nat → Nat) (s : String)
    (hb : trimIsEmpty s = false) (m k : Nat) (hm : m = FLUSH_EVERY + 1) :
    (ingestMain clock
        (List.replicate (WARMUP_LINE_COUNT + (m + k)) (ReadEvent.line s))).flushLog
      = List.range' m k := by
  have hsplit : List.replicate (WARMUP_LINE_COUNT + (m + k)) (ReadEvent.line s)
      = List.replicate WARMUP_LINE_COUNT (ReadEvent.line s)
        ++ (List.replicate m (ReadEvent.line s) ++ List.replicate k (ReadEvent.line s)) := by
    rw [← List.replicate_add, ← List.replicate_add]
  have h1 := warmupInitRun clock (List.replicate WARMUP_LINE_COUNT (ReadEvent.line s))
    (all_isLine_replicate _ s) (by simp)
  have h2 := ingestRun_noflush clock s hb m
    { initState with skip_first_three := WARMUP_LINE_COUNT }
    (by simp) (by simp [initState]; omega)
  have h3 := ingestRun_flushEvery clock s hb k
    (ingestRun clock (List.replicate m (ReadEvent.line s))
      { initState with skip_first_three := WARMUP_LINE_COUNT })
    (by rw [h2.2.1])
    (by rw [h2.1]; simp [initState]; omega)
  simp only [ingestMain, finalFlush_flushLog]
  rw [hsplit,
    ingestRun_append_lines _ _ _ _ (all_isLine_replicate _ s),
    ingestRun_append_lines _ _ _ _ (all_isLine_replicate _ s), h1,
    h3, h2.2.2, h2.1]
  simp [initState]

/-- Claim C1: the flush schedule on a concrete run. On a stream of 500
warm-up lines followed by 5003 non-blank lines, the loop performs its in-loop
flushes at `counter` values 5001 and 5002 — that is, no flush happens while
the first 5000 post-warm-up lines arrive (in particular none at the claimed
5000th processed line), and once `counter` exceeds `FLUSH_EVERY` a flush
happens on every further non-blank line, because `counter` is never reset.
The claimed behavior (exactly one flush per 5000 processed lines, at the
iteration where the count since the last flush reaches 5000) would give
exactly one flush on this input. -/
theorem flush_schedule_on_5503_lines :
    (ingestMain (fun _ => 0) (List.replicate 5503 (ReadEvent.line "1\n"))).flushLog
      = [5001, 5002] := by
  have h := ingestMain_flushLog_pattern (fun _ => 0) "1\n" (by decide) 5001 2
    (by norm_num [FLUSH_EVERY])
  rw [show WARMUP_LINE_COUNT + (5001 + 2) = 5503 by norm_num [WARMUP_LINE_COUNT]] at h
  rw [h]
  decide

/-- Claim C10: a failed `write!` of a timestamped line to the readings
buffer, or a failed in-loop `flush()`, is propagated by `?` out of the
ingestion loop and ends the run with that error (the rest of the stream is
never read), while a serial read error on the same state is swallowed and
the loop just continues with the next read. -/
theorem readings_write_error_fatal (clock : Nat → Nat) (writeOk flushOk : Nat → Bool)
    (rest : List ReadEvent) (s : String) (st : IngestState)
    (hw : WARMUP_LINE_COUNT ≤ st.skip_first_three)
    (hb : trimIsEmpty s = false)
    (hfail : writeOk st.tsCalls = false
      ∨ (st.counter > FLUSH_EVERY ∧ flushOk st.flushLog.length = false)) :
    ingestRunE clock writeOk flushOk (ReadEvent.line s :: rest) st = Except.error ()
    ∧ ingestRunE clock writeOk flushOk (ReadEvent.err :: rest) st
        = ingestRunE clock writeOk flushOk rest { st with counter := st.counter + 1 } := by
  refine ⟨?_, by rw [ingestRunE]⟩
  have hstep : ingestStepE clock writeOk flushOk st s = Except.error () := by
    rcases hfail with hwr | ⟨hc, hfl⟩
    · simp [ingestStepE, Nat.not_lt.mpr hw, hb, hwr]
    · cases hwo : writeOk st.tsCalls with
      | false => simp [ingestStepE, Nat.not_lt.mpr hw, hb, hwo]
      | true => simp [ingestStepE, Nat.not_lt.mpr hw, hb, hwo, hc, hfl]
  rw [ingestRunE, hstep]

theorem readings_write_error_fatal_witness :
    (WARMUP_LINE_COUNT
        ≤ ({ skip_first_three := 500, counter := 0, buffer := [], flushed := [],
             tsCalls := 0, flushLog := [] } : IngestState).skip_first_three
      ∧ trimIsEmpty "1\n" = false)
    ∧ ingestRunE (fun _ => 0) (fun _ => false) (fun _ => true)
        [ReadEvent.line "1\n", ReadEvent.line "2\n"]
        { skip_first_three := 500, counter := 0, buffer := [], flushed := [],
          tsCalls := 0, flushLog := [] }
      = Except.error ()
    ∧ ingestRunE (fun _ => 0) (fun _ => false) (fun _ => true)
        [ReadEvent.err, ReadEvent.line "2\n"]
        { skip_first_three := 500, counter := 0, buffer := [], flushed := [],
          tsCalls := 0, flushLog := [] }
      = ingestRunE (fun _ => 0) (fun _ => false) (fun _ => true) [ReadEvent.line "2\n"]
          { skip_first_three := 500, counter := 1, buffer := [], flushed := [],
            tsCalls := 0, flushLog := [] } :=
  ⟨⟨by decide, by decide⟩,
   readings_write_error_fatal (fun _ => 0) (fun _ => false) (fun _ => true)
     [ReadEvent.line "2\n"] "1\n"
     { skip_first_three := 500, counter := 0, buffer := [], flushed := [],
       tsCalls := 0, flushLog := [] }
     (by decide) (by decide) (Or.inl rfl)⟩


/-! ### Claims about setup: device opening and directory allocation -/

/-- Claim C4: evaluation of the open-port error path at a failing input. With
a configured (operator-supplied) device path `/custom/path` whose open fails
with `NotFound`, the error produced carries the default device-path constant
in its message, not the configured path that was actually attempted — the
message built by the source interpolates `DEFAULT_DEVICE_NAME`, so the claim
"the message carries that configured device path" fails whenever the
configured path is not the default. Any non-`NotFound` failure is propagated
unchanged, as the claim's second half states. -/
theorem device_not_found_names_default_path :
    open_port (some "/custom/path")
        (fun _ => Except.error { kind := ErrorKind.notFound, msg := "os error 2" })
      = Except.error
          { kind := ErrorKind.notFound,
            msg := "Device not found: " ++ DEFAULT_DEVICE_NAME }
    ∧ deviceOf (some "/custom/path") = "/custom/path"
    ∧ ("Device not found: " ++ DEFAULT_DEVICE_NAME)
        ≠ ("Device not found: " ++ "/custom/path")
    ∧ open_port (some "/custom/path")
        (fun _ => Except.error { kind := ErrorKind.permissionDenied, msg := "os error 13" })
      = Except.error { kind := ErrorKind.permissionDenied, msg := "os error 13" } :=
  ⟨rfl, rfl, by decide, rfl⟩

/-- Claim C5: the session directory allocator computes the new directory name
as 1 plus the number of entries it could read (per-entry failures are skipped,
not counted and not fatal), joined onto the base directory; in particular for
a base directory with exactly three readable entries — such as ones named 1,
2 and 4 — the new directory is named 4 (count-based, not max-based). -/
theorem allocator_counts_entries :
    (∀ (base_dir : String) (entries : List (Except String Unit)),
      next_numeric_subdir base_dir entries
        = base_dir ++ "/"
            ++ toString
              (1 + (entries.filter (fun e =>
                      match e with
                      | Except.ok _ => true
                      | Except.error _ => false)).length))
    ∧ next_numeric_subdir "base" [Except.ok (), Except.ok (), Except.ok ()] = "base/4" := by
  constructor
  · intro base_dir entries
    rw [next_numeric_subdir]
    have count : ∀ (l : List (Except String Unit)) (k : Nat),
        l.foldl
            (fun idx e => match e with
              | Except.ok _ => idx + 1
              | Except.error _ => idx) k
          = k + (l.filter (fun e =>
                  match e with
                  | Except.ok _ => true
                  | Except.error _ => false)).length := by
      intro l
      induction l with
      | nil => intro k; simp
      | cons e tl ih =>
          intro k
          cases e with
          | ok v => simp [List.foldl_cons, List.filter_cons, ih]; omega
          | error v => simp [List.foldl_cons, List.filter_cons, ih]
    rw [count entries 1, Nat.add_comm]
  · rfl

/-! ### Claims about the autonomous timeline generator and the label writer -/

theorem timelineEvents_countP (p : Activity → Bool) :
    ∀ acts : List Activity,
      (timelineEvents acts).countP p
        = acts.countP p + (acts.length + 1) * (if p Activity.OTHER then 1 else 0)
  | [] => by
      cases hpo : p Activity.OTHER <;>
        simp [timelineEvents, List.countP_cons, hpo]
  | a :: rest => by
      have ih := timelineEvents_countP p rest
      cases hpo : p Activity.OTHER <;> cases hpa : p a <;>
        simp [timelineEvents, List.countP_cons, hpo, hpa, ih, List.length_cons] <;>
        ring

theorem timelineEvents_get_even :
    ∀ (acts : List Activity) (i : Nat), i < acts.length →
      (timelineEvents acts).get? (2 * i) = some Activity.OTHER
      ∧ (timelineEvents acts).get? (2 * i + 1) = acts.get? i
  | [], i, h => absurd h (by simp)
  | _ :: _, 0, _ => ⟨rfl, rfl⟩
  | a :: rest, i + 1, h => by
      have ih := timelineEvents_get_even rest i (by simpa [List.length_cons] using h)
      have e2 : 2 * (i + 1) = 2 * i + 1 + 1 := by ring
      have e3 : 2 * (i + 1) + 1 = 2 * i + 1 + 1 + 1 := by ring
      constructor
      · rw [e2]
        simp only [timelineEvents, List.get?_cons_succ]
        exact ih.1
      · rw [e3]
        simp only [timelineEvents, List.get?_cons_succ]
        exact ih.2

theorem timelineEvents_last :
    ∀ acts : List Activity,
      (timelineEvents acts).get? (2 * acts.length) = some Activity.OTHER
  | [] => rfl
  | a :: rest => by
      have e : 2 * (a :: rest).length = 2 * rest.length + 1 + 1 := by
        simp [List.length_cons]; ring
      rw [e]
      simp only [timelineEvents, List.get?_cons_succ]
      exact timelineEvents_last rest

/-- Claim C6: in a full autonomous session — the timeline loop run on any
shuffled arrangement of `ACTIVITIES_ARR` — the emitted label stream has
exactly 9 `OTHER` events and exactly 8 non-`OTHER` events, with each of the
four real codes appearing exactly twice; positionally, the event before each
slot's own event is an `OTHER`, and one final `OTHER` follows the last
slot. -/
theorem label_stream_counts (acts : List Activity) (hp : acts.Perm ACTIVITIES_ARR) :
    countAct Activity.OTHER (timelineEvents acts) = 9
    ∧ (timelineEvents acts).countP (fun y => decide (¬ y = Activity.OTHER)) = 8
    ∧ countAct Activity.NOTHING (timelineEvents acts) = 2
    ∧ countAct Activity.TYPING (timelineEvents acts) = 2
    ∧ countAct Activity.SCROLLING (timelineEvents acts) = 2
    ∧ countAct Activity.FIDGETING (timelineEvents acts) = 2
    ∧ (List.range acts.length).all (fun i =>
        decide ((timelineEvents acts).get? (2 * i) = some Activity.OTHER)
        && decide ((timelineEvents acts).get? (2 * i + 1) = acts.get? i)) = true
    ∧ (timelineEvents acts).get? (2 * acts.length) = some Activity.OTHER := by
  have hlen : acts.length = 8 := by rw [hp.length_eq]; rfl
  refine ⟨?_, ?_, ?_, ?_, ?_, ?_, ?_, timelineEvents_last acts⟩
  · rw [countAct, timelineEvents_countP, hp.countP_eq, hlen]; decide
  · rw [timelineEvents_countP, hp.countP_eq, hlen]; decide
  · rw [countAct, timelineEvents_countP, hp.countP_eq, hlen]; decide
  · rw [countAct, timelineEvents_countP, hp.countP_eq, hlen]; decide
  · rw [countAct, timelineEvents_countP, hp.countP_eq, hlen]; decide
  · rw [countAct, timelineEvents_countP, hp.countP_eq, hlen]; decide
  · apply List.all_eq_true.mpr
    intro i hi
    have h := timelineEvents_get_even acts i (List.mem_range.mp hi)
    simp only [Bool.and_eq_true, decide_eq_true_eq]
    exact h

theorem label_stream_counts_witness :
    List.Perm ACTIVITIES_ARR ACTIVITIES_ARR
    ∧ (countAct Activity.OTHER (timelineEvents ACTIVITIES_ARR) = 9
      ∧ (timelineEvents ACTIVITIES_ARR).countP
          (fun y => decide (¬ y = Activity.OTHER)) = 8
      ∧ countAct Activity.NOTHING (timelineEvents ACTIVITIES_ARR) = 2
      ∧ countAct Activity.TYPING (timelineEvents ACTIVITIES_ARR) = 2
      ∧ countAct Activity.SCROLLING (timelineEvents ACTIVITIES_ARR) = 2
      ∧ countAct Activity.FIDGETING (timelineEvents ACTIVITIES_ARR) = 2
      ∧ (List.range ACTIVITIES_ARR.length).all (fun i =>
          decide ((timelineEvents ACTIVITIES_ARR).get? (2 * i) = some Activity.OTHER)
          && decide ((timelineEvents ACTIVITIES_ARR).get? (2 * i + 1)
              = ACTIVITIES_ARR.get? i)) = true
      ∧ (timelineEvents ACTIVITIES_ARR).get? (2 * ACTIVITIES_ARR.length)
          = some Activity.OTHER) :=
  ⟨List.Perm.refl ACTIVITIES_ARR,
   label_stream_counts ACTIVITIES_ARR (List.Perm.refl ACTIVITIES_ARR)⟩

theorem write_label_writeAttempts (ok : Nat → Bool) (clock : Nat → Nat)
    (a : Activity) (f : LabelFile) :
    ((write_label_to_file ok clock a f).2).writeAttempts = f.writeAttempts + 1 := by
  cases hok : ok f.writeAttempts <;> simp [write_label_to_file, hok]

theorem write_label_lines (ok : Nat → Bool) (clock : Nat → Nat)
    (a : Activity) (f : LabelFile) :
    ((write_label_to_file ok clock a f).2).lines
      = f.lines ++ (if ok f.writeAttempts
          then [toString (clock f.writeAttempts) ++ ";" ++ activityCode a]
          else []) := by
  cases hok : ok f.writeAttempts <;> simp [write_label_to_file, hok]

theorem runTimeline_writeAttempts (ok : Nat → Bool) (clock : Nat → Nat) :
    ∀ (acts : List Activity) (f : LabelFile),
      (runTimeline ok clock acts f).writeAttempts
        = f.writeAttempts + (2 * acts.length + 1)
  | [], f => by
      simp [runTimeline, write_label_writeAttempts]
  | a :: rest, f => by
      simp only [runTimeline]
      rw [runTimeline_writeAttempts ok clock rest]
      simp only [write_label_writeAttempts, List.length_cons]
      omega

theorem runTimeline_lines_len (ok : Nat → Bool) (clock : Nat → Nat) :
    ∀ (acts : List Activity) (f : LabelFile),
      (runTimeline ok clock acts f).lines.length
        = f.lines.length
          + ((List.range' f.writeAttempts (2 * acts.length + 1)).filter ok).length
  | [], f => by
      cases hok : ok f.writeAttempts <;>
        simp [runTimeline, write_label_lines, hok, List.range'_succ, List.filter_cons]
  | a :: rest, f => by
      have e : 2 * (a :: rest).length + 1 = (2 * rest.length + 1) + 1 + 1 := by
        simp [List.length_cons]; ring
      have hr : List.range' f.writeAttempts ((2 * rest.length + 1) + 1 + 1)
          = f.writeAttempts :: (f.writeAttempts + 1)
            :: List.range' (f.writeAttempts + 1 + 1) (2 * rest.length + 1) := by
        rw [List.range'_succ, List.range'_succ]
      simp only [runTimeline]
      rw [e, hr, runTimeline_lines_len ok clock rest]
      simp only [write_label_lines, write_label_writeAttempts, List.length_append,
        List.filter_cons]
      cases hok1 : ok f.writeAttempts <;> cases hok2 : ok (f.writeAttempts + 1) <;>
        simp [hok1, hok2] <;> omega

theorem runTimeline_lines_shape (ok : Nat → Bool) (clock : Nat → Nat) :
    ∀ (acts : List Activity) (f : LabelFile),
      ∃ ps : List (Nat × Activity),
        (runTimeline ok clock acts f).lines
          = f.lines ++ ps.map (fun p => toString p.1 ++ ";" ++ activityCode p.2)
  | [], f => by
      cases hok : ok f.writeAttempts
      · exact ⟨[], by simp [runTimeline, write_label_lines, hok]⟩
      · exact ⟨[(clock f.writeAttempts, Activity.OTHER)],
          by simp [runTimeline, write_label_lines, hok]⟩
  | a :: rest, f => by
      obtain ⟨ps, hps⟩ := runTimeline_lines_shape ok clock rest
        ((write_label_to_file ok clock a
          ((write_label_to_file ok clock Activity.OTHER f).2)).2)
      refine ⟨(if ok f.writeAttempts
            then [(clock f.writeAttempts, Activity.OTHER)] else [])
          ++ ((if ok (f.writeAttempts + 1)
            then [(clock (f.writeAttempts + 1), a)] else []) ++ ps), ?_⟩
      simp only [runTimeline]
      rw [hps]
      simp only [write_label_lines, write_label_writeAttempts, List.map_append]
      cases hok1 : ok f.writeAttempts <;> cases hok2 : ok (f.writeAttempts + 1) <;>
        simp [hok1, hok2, List.append_assoc]

/-- Claim C7: the caller of the label writer observes no failure — whatever
the per-write outcomes `ok` are, the timeline performs all `2n + 1` write
attempts (a failed write is dropped on the floor and the loop goes on, the
handle staying in use), the file gains exactly one line per successful write,
and every line on file has the form `"<timestamp>;<code>"` with the code one
of t, s, f, n, o. -/
theorem label_writer_never_fails (ok : Nat → Bool) (clock : Nat → Nat)
    (acts : List Activity) :
    (labelSession ok clock acts).writeAttempts = 2 * acts.length + 1
    ∧ (labelSession ok clock acts).lines.length
        = ((List.range (2 * acts.length + 1)).filter ok).length
    ∧ (∃ ps : List (Nat × Activity),
        (labelSession ok clock acts).lines
          = ps.map (fun p => toString p.1 ++ ";" ++ activityCode p.2))
    ∧ ∀ a : Activity, ["t", "s", "f", "n", "o"].contains (activityCode a) = true := by
  refine ⟨?_, ?_, ?_, ?_⟩
  · simpa [labelSession] using
      runTimeline_writeAttempts ok clock acts { lines := [], writeAttempts := 0 }
  · have h := runTimeline_lines_len ok clock acts { lines := [], writeAttempts := 0 }
    simpa [labelSession, List.range_eq_range'] using h
  · obtain ⟨ps, hps⟩ := runTimeline_lines_shape ok clock acts
      { lines := [], writeAttempts := 0 }
    exact ⟨ps, by simpa [labelSession] using hps⟩
  · intro a
    cases a <;> rfl

/-- Claim C8: the neutral code `OTHER` never reaches the prepare-message
rendering path — every activity drawn from any shuffled arrangement of
`ACTIVITIES_ARR` is a real activity, so `get_before_activity_msg` always
returns a message and the source's `unreachable!()` arm is never taken. -/
theorem other_never_rendered (acts : List Activity) (hp : acts.Perm ACTIVITIES_ARR) :
    acts.all (fun a => decide (¬ a = Activity.OTHER)
      && (get_before_activity_msg a).isSome) = true := by
  apply List.all_eq_true.mpr
  intro a ha
  have hmem : a ∈ ACTIVITIES_ARR := hp.subset ha
  cases a <;> first | rfl | exact absurd hmem (by decide)

theorem other_never_rendered_witness :
    List.Perm ACTIVITIES_ARR ACTIVITIES_ARR
    ∧ ACTIVITIES_ARR.all (fun a => decide (¬ a = Activity.OTHER)
        && (get_before_activity_msg a).isSome) = true :=
  ⟨List.Perm.refl ACTIVITIES_ARR,
   other_never_rendered ACTIVITIES_ARR (List.Perm.refl ACTIVITIES_ARR)⟩

/-! ### Claim about the randomized choices of the generator -/

theorem listSwap_length (l : List Activity) (i j : Nat) :
    (listSwap l i j).length = l.length := by
  simp only [listSwap]
  cases h1 : l.get? i <;> cases h2 : l.get? j <;>
    simp [h1, h2, List.length_set]

theorem shuffleGo_length (s : Nat → Nat) :
    ∀ (i : Nat) (l : List Activity) (k : Nat),
      (shuffleGo s i l k).1.length = l.length
  | 0, _, _ => rfl
  | i + 1, l, k => by
      simp only [shuffleGo]
      rw [shuffleGo_length s i]
      exact listSwap_length l (i + 1) (s k % (i + 2))

theorem shuffleGo_snd (s : Nat → Nat) :
    ∀ (i : Nat) (l : List Activity) (k : Nat), (shuffleGo s i l k).2 = k + i
  | 0, _, _ => rfl
  | i + 1, l, k => by
      simp only [shuffleGo]
      rw [shuffleGo_snd s i]
      omega

theorem shuffleGo_congr (s1 s2 : Nat → Nat) :
    ∀ (i : Nat) (l : List Activity) (k : Nat),
      (∀ j, k ≤ j → j < k + i → s1 j = s2 j) →
      shuffleGo s1 i l k = shuffleGo s2 i l k
  | 0, _, _, _ => rfl
  | i + 1, l, k, h => by
      simp only [shuffleGo]
      rw [h k (Nat.le_refl k) (by omega)]
      exact shuffleGo_congr s1 s2 i _ (k + 1)
        (fun j hj1 hj2 => h j (by omega) (by omega))

theorem chooseDraws_congr (s1 s2 : Nat → Nat) :
    ∀ (l : List Activity) (k : Nat),
      (∀ j, k ≤ j → j < k + l.length → s1 j = s2 j) →
      chooseDraws s1 l k = chooseDraws s2 l k
  | [], _, _ => rfl
  | Activity.TYPING :: rest, k, h => by
      simp only [chooseDraws]
      rw [h k (Nat.le_refl k) (by simp [List.length_cons]),
        chooseDraws_congr s1 s2 rest (k + 1)
          (fun j hj1 hj2 => h j (by omega) (by simp [List.length_cons]; omega))]
  | Activity.NOTHING :: rest, k, h => by
      simp only [chooseDraws]
      exact chooseDraws_congr s1 s2 rest k
        (fun j hj1 hj2 => h j hj1 (by simp [List.length_cons]; omega))
  | Activity.SCROLLING :: rest, k, h => by
      simp only [chooseDraws]
      exact chooseDraws_congr s1 s2 rest k
        (fun j hj1 hj2 => h j hj1 (by simp [List.length_cons]; omega))
  | Activity.FIDGETING :: rest, k, h => by
      simp only [chooseDraws]
      exact chooseDraws_congr s1 s2 rest k
        (fun j hj1 hj2 => h j hj1 (by simp [List.length_cons]; omega))
  | Activity.OTHER :: rest, k, h => by
      simp only [chooseDraws]
      exact chooseDraws_congr s1 s2 rest k
        (fun j hj1 hj2 => h j hj1 (by simp [List.length_cons]; omega))

/-- Claim C9: with the rng embedded as the stream of its successive draws,
all randomized choices of the autonomous timeline generator — the shuffled
slot order and the chosen retype passage indices — are a deterministic
function of the seed: the session consumes at most the first 15 draws (7 for
the Fisher-Yates shuffle of the 8 slots, then at most one per slot), so two
runs whose streams agree there produce the identical slot order and the
identical passage choices. -/
theorem session_plan_deterministic (s1 s2 : Nat → Nat)
    (h : ∀ i, i < 15 → s1 i = s2 i) :
    sessionPlan s1 = sessionPlan s2 := by
  have h8 : ACTIVITIES_ARR.length = 8 := rfl
  have hsh : shuffleGo s1 (ACTIVITIES_ARR.length - 1) ACTIVITIES_ARR 0
      = shuffleGo s2 (ACTIVITIES_ARR.length - 1) ACTIVITIES_ARR 0 :=
    shuffleGo_congr s1 s2 _ _ 0
      (fun j _ hj2 => h j (by rw [h8] at hj2; omega))
  have hk := shuffleGo_snd s2 (ACTIVITIES_ARR.length - 1) ACTIVITIES_ARR 0
  have hlen := shuffleGo_length s2 (ACTIVITIES_ARR.length - 1) ACTIVITIES_ARR 0
  have hch : chooseDraws s1 (shuffleGo s2 (ACTIVITIES_ARR.length - 1) ACTIVITIES_ARR 0).1
        (shuffleGo s2 (ACTIVITIES_ARR.length - 1) ACTIVITIES_ARR 0).2
      = chooseDraws s2 (shuffleGo s2 (ACTIVITIES_ARR.length - 1) ACTIVITIES_ARR 0).1
        (shuffleGo s2 (ACTIVITIES_ARR.length - 1) ACTIVITIES_ARR 0).2 :=
    chooseDraws_congr s1 s2 _ _
      (fun j _ hj2 => h j (by rw [hk, hlen, h8] at hj2; omega))
  simp only [sessionPlan, shuffle]
  rw [hsh, hch]

theorem session_plan_deterministic_witness :
    sessionPlan (fun n => n) = sessionPlan (fun n => if n < 15 then n else n + 100) :=
  session_plan_deterministic (fun n => n) (fun n => if n < 15 then n else n + 100)
    (fun i hi => by simp [hi])

end FidgetSense
